import Mathlib

/-!
Shallow embedding of `orangecontrib/spectroscopy/widgets/preprocessors/emsc.py`
(the `EMSCEditor` widget's parameter-management logic), together with proofs
about its parameter codec: `setParameters`, `parameters`, `_compute_weights`,
`createinstance` and `_set_range_parameters`.

Modelling choices:
* Spectral positions and weights are embedded as `Rat` (the Python code stores
  and re-reads them through attribute assignment and `float(...)`; no rounding
  arithmetic is performed in this file).
* A `params` dict is a structure of optional fields, one per recognised key;
  `extra_keys` records any unrecognised keys so that Python dict truthiness
  (`if params:`) is represented faithfully.
* A range entry supplied in `params["ranges"]` is a `List Rat` of arbitrary
  length, because the Python code unpacks each entry as a 3-tuple and raises
  `ValueError` on any other arity; fallible steps return `Except String`.
* UI-only effects (labels, plot curves, `update_reference_info`) change no
  modelled state and are omitted.
-/

namespace EMSCSpec

/-- A data table: a list of rows (spectra). Python slicing `data[:0]` is `List.take 0`. -/
abbrev DataTable := List (List Rat)

/-- A reference spectrum table (owned externally, passed opaquely). -/
abbrev RefData := DataTable

/-- One entry of `params["ranges"]`: a Python tuple/list of numbers of any arity.
The code unpacks it as `(rmin, rhigh, weight)`, so only length-3 entries survive. -/
abbrev RangeEntry := List Rat

/-- One row of range widgets: the pair of `XPosLineEdit`s holding min and max
positions (`pair[0].position`, `pair[1].position`). -/
structure RangeWidgetPair where
  minPos : Rat
  maxPos : Rat
deriving Repr, DecidableEq

/-- A `params` mapping. `none` in an optional field means the key is absent;
`reference_data` is doubly optional because the key can be present and map to
Python `None`. `extra_keys` models unrecognised keys (they only affect dict
truthiness). -/
structure Params where
  order : Option Int := none
  scaling : Option Bool := none
  output_model : Option Bool := none
  ranges : Option (List RangeEntry) := none
  reference_data : Option (Option RefData) := none
  extra_keys : List String := []
deriving Repr, DecidableEq

/-- Python `if params:` — dict truthiness: true iff some key is present. -/
def Params.isEmptyDict (p : Params) : Bool :=
  p.order.isNone && p.scaling.isNone && p.output_model.isNone &&
    p.ranges.isNone && p.reference_data.isNone && p.extra_keys.isEmpty

/-- `params.get(REFERENCE_DATA_PARAM, None)`: an absent key and a key mapping
to `None` both collapse to `none`. -/
def Params.getReference (p : Params) : Option RefData :=
  p.reference_data.getD none

/-- `EMSCEditor.ORDER_DEFAULT = 2`. -/
def ORDER_DEFAULT : Int := 2

/-- `EMSCEditor.SCALING_DEFAULT = True`. -/
def SCALING_DEFAULT : Bool := true

/-- `EMSCEditor.OUTPUT_MODEL_DEFAULT = False`. -/
def OUTPUT_MODEL_DEFAULT : Bool := false

/-- The modelled fields of the editor widget. -/
structure EditorState where
  order : Int
  scaling : Bool
  output_model : Bool
  rangeWidgets : List RangeWidgetPair
  reference : Option RefData
  user_changed : Bool
deriving Repr, DecidableEq

/-- `EMSCEditor.__init__`: defaults for the scalar options, no range rows,
no reference, `user_changed = False`. -/
def EMSCEditor.init : EditorState :=
  { order := ORDER_DEFAULT
    scaling := SCALING_DEFAULT
    output_model := OUTPUT_MODEL_DEFAULT
    rangeWidgets := []
    reference := none
    user_changed := false }

/-- An edit of the polynomial-order spin widget (`gui.spin ... minv=0, maxv=10`):
the spin box only lets the user commit a value clamped into its `[minv, maxv]`
range. -/
def ui_set_order (s : EditorState) (v : Int) : EditorState :=
  { s with order := max 0 (min 10 v) }

/-- The loop of `_set_range_parameters`: `rw = list(self._range_widgets())` is
captured once, so `origLen` is the widget count before the loop. Each entry is
unpacked as `(rmin, rhigh, weight)` — any other arity raises `ValueError`.
For `i >= len(rw)` a fresh widget row is appended (its preview defaults are
immediately overwritten by `rmin`, `rhigh`); otherwise row `i` is updated in
place. The weight component is never used. -/
def setRangesLoop (origLen : Nat) :
    List RangeEntry → Nat → List RangeWidgetPair → Except String (List RangeWidgetPair)
  | [], _, ws => Except.ok ws
  | entry :: rest, i, ws =>
    match entry with
    | [rmin, rhigh, _w] =>
      let ws2 := if origLen ≤ i then ws ++ [⟨rmin, rhigh⟩] else ws.set i ⟨rmin, rhigh⟩
      setRangesLoop origLen rest (i + 1) ws2
    | _ => Except.error "ValueError: range entry does not unpack into (rmin, rhigh, weight)"

/-- `EMSCEditor._set_range_parameters(params)`. -/
def _set_range_parameters (s : EditorState) (params : Params) :
    Except String EditorState :=
  match setRangesLoop s.rangeWidgets.length (params.ranges.getD []) 0 s.rangeWidgets with
  | Except.ok ws => Except.ok { s with rangeWidgets := ws }
  | Except.error e => Except.error e

/-- `EMSCEditor.setParameters(params)`: mark `user_changed` when the dict is
non-empty, read the three scalar options with class-default fallbacks, then
apply the ranges. The trailing `update_reference_info()` only updates display
widgets. -/
def setParameters (s : EditorState) (params : Params) : Except String EditorState :=
  let s1 := if params.isEmptyDict then s else { s with user_changed := true }
  let s2 := { s1 with
    order := params.order.getD ORDER_DEFAULT
    scaling := params.scaling.getD SCALING_DEFAULT
    output_model := params.output_model.getD OUTPUT_MODEL_DEFAULT }
  _set_range_parameters s2 params

/-- The mapping produced by `parameters()`. -/
structure ParamsOut where
  order : Int
  scaling : Bool
  output_model : Bool
  ranges : List (Rat × Rat × Rat)
deriving Repr, DecidableEq

/-- Modelled from the spec: `BaseEditorOrange.parameters` lives in
`widgets/preprocessors/utils.py`, which is not among the analysed sources; the
spec says the codec "produces a mapping mirroring" the editor's controlled
scalar attributes `order`, `scaling`, `output_model`. -/
def superParameters (s : EditorState) : ParamsOut :=
  { order := s.order
    scaling := s.scaling
    output_model := s.output_model
    ranges := [] }

/-- `EMSCEditor.parameters()`: the superclass mapping, with `ranges` rebuilt
from the widget rows as `[float(min), float(max), 1.0]` — the comment in the
source says "for now weight is always 1.0". -/
def parameters (s : EditorState) : ParamsOut :=
  let base := superParameters s
  { base with
    ranges := s.rangeWidgets.map (fun w => (w.minPos, w.maxPos, (1 : Rat))) }

/-- The weight table produced by the external collaborator. -/
structure WeightTable where
  sourceRanges : List RangeEntry
deriving Repr, DecidableEq

/-- Modelled from the spec: `ranges_to_weight_table` is imported from
`preprocess/emsc.py`, which is not among the analysed sources; the spec treats
the range-to-weight-table conversion as a delegated contract, so it is embedded
as a wrapper recording its argument. -/
def ranges_to_weight_table (ranges : List RangeEntry) : WeightTable :=
  ⟨ranges⟩

/-- `EMSCEditor._compute_weights(params)`: `None` unless `params["ranges"]` is
present and truthy (non-empty), in which case the external conversion is
applied to it. -/
def _compute_weights (params : Params) : Option WeightTable :=
  let ranges := params.ranges.getD []
  if ranges.isEmpty then none else some (ranges_to_weight_table ranges)

/-- The transform returned by `createinstance`: either the no-reference lambda
or an `EMSC` instance recording its construction arguments. -/
inductive Transform where
  | emptyOut : Transform
  | emsc (reference : RefData) (weights : Option WeightTable) (order : Int)
      (scaling : Bool) (output_model : Bool) : Transform
deriving Repr, DecidableEq

/-- Applying a transform to a data table. The no-reference branch is
`lambda data: data[:0]`. The `EMSC` numeric correction is owned by an external
module and is not modelled, hence `none` there. -/
def Transform.run : Transform → DataTable → Option DataTable
  | Transform.emptyOut, data => some (data.take 0)
  | Transform.emsc _ _ _ _ _, _ => none

/-- `EMSCEditor.createinstance(params)`: scalar options with class-default
fallbacks, weights from `_compute_weights`, and a branch on the reference. -/
def createinstance (params : Params) : Transform :=
  let order := params.order.getD ORDER_DEFAULT
  let scaling := params.scaling.getD SCALING_DEFAULT
  let output_model := params.output_model.getD OUTPUT_MODEL_DEFAULT
  let weights := _compute_weights params
  match params.getReference with
  | none => Transform.emptyOut
  | some reference => Transform.emsc reference weights order scaling output_model

/-! ### Concrete example inputs used to instantiate the theorems -/

/-- A params dict carrying only a scaling key. -/
def exampleParamsScaling : Params := { scaling := some false }

/-- The editor state produced by applying `exampleParamsScaling` to a fresh editor. -/
def exampleAfterScaling : EditorState :=
  { order := 2
    scaling := false
    output_model := false
    rangeWidgets := []
    reference := none
    user_changed := true }

/-- A params dict whose single range entry carries a non-default weight 7. -/
def exampleParamsWeight7 : Params := { ranges := some [[100, 200, 7]] }

/-- The editor state produced by applying `exampleParamsWeight7` to a fresh editor. -/
def exampleAfterWeight7 : EditorState :=
  { order := 2
    scaling := true
    output_model := false
    rangeWidgets := [⟨100, 200⟩]
    reference := none
    user_changed := true }

/-- A params dict whose range entry is a 2-tuple instead of a 3-tuple. -/
def exampleParamsBadEntry : Params := { ranges := some [[100, 200]] }

/-- A params dict whose order value lies outside the spin widget range 0..10. -/
def exampleParamsOrder99 : Params := { order := some 99 }

/-- The editor state produced by applying `exampleParamsOrder99` to a fresh editor. -/
def exampleAfterOrder99 : EditorState :=
  { order := 99
    scaling := true
    output_model := false
    rangeWidgets := []
    reference := none
    user_changed := true }

/-- A full params dict whose two range entries both carry weight 1. -/
def exampleParamsFull : Params :=
  { order := some 3
    scaling := some false
    output_model := some true
    ranges := some [[100, 200, 1], [300, 400, 1]] }

/-- A params dict that differs from a plain order-3 dict only in an unrecognised key. -/
def exampleParamsExtraKey : Params := { order := some 3, extra_keys := ["unused"] }

/-- A params dict carrying only an order key. -/
def exampleParamsOrder3 : Params := { order := some 3 }

/-- The editor state produced by applying `exampleParamsOrder3` to a fresh editor. -/
def exampleAfterOrder3 : EditorState :=
  { order := 3
    scaling := true
    output_model := false
    rangeWidgets := []
    reference := none
    user_changed := true }

/-- A params dict whose reference key is present but maps to Python None. -/
def exampleParamsNoneRef : Params := { reference_data := some none, order := some 5 }

/-- A params dict supplying a reference spectrum and one range. -/
def exampleParamsWithRef : Params :=
  { reference_data := some (some [[1, 2, 3]])
    ranges := some [[10, 20, 1]] }

/-- An editor state that already holds two range widget rows. -/
def exampleTwoWidgets : EditorState :=
  { order := 2
    scaling := true
    output_model := false
    rangeWidgets := [⟨0, 1⟩, ⟨5, 6⟩]
    reference := none
    user_changed := true }

/-- A params dict with a single range entry, fewer than the two widget rows of
`exampleTwoWidgets`. -/
def exampleParamsOneRange : Params := { ranges := some [[2, 3, 1]] }

/-- The state produced by applying `exampleParamsOneRange` to `exampleTwoWidgets`:
row 0 is updated, the surplus row 1 keeps its positions. -/
def exampleAfterOneRange : EditorState :=
  { order := 2
    scaling := true
    output_model := false
    rangeWidgets := [⟨2, 3⟩, ⟨5, 6⟩]
    reference := none
    user_changed := true }

/-! ### Helper lemmas about the range-update loop -/

/-- When the loop index is already past the originally captured widget count,
every (well-formed) entry appends a fresh row holding its first two components. -/
theorem setRangesLoop_append_of_le (entries : List RangeEntry) (origLen i : Nat)
    (ws : List RangeWidgetPair) (hlen : origLen ≤ i)
    (h3 : ∀ e ∈ entries, e.length = 3) :
    setRangesLoop origLen entries i ws =
      Except.ok (ws ++ entries.map (fun e => ⟨e.headD 0, (e.drop 1).headD 0⟩)) := by
  induction entries generalizing i ws with
  | nil => simp [setRangesLoop]
  | cons e rest ih =>
    obtain ⟨a, b, c, rfl⟩ := List.length_eq_three.mp (h3 e (List.mem_cons_self e rest))
    have hrest : ∀ x ∈ rest, x.length = 3 := fun x hx => h3 x (List.mem_cons_of_mem _ hx)
    rw [setRangesLoop]
    simp only [if_pos hlen]
    rw [ih (i + 1) (ws ++ [RangeWidgetPair.mk a b]) (Nat.le_succ_of_le hlen) hrest]
    simp

/-- The loop succeeds whenever every entry is a 3-tuple. -/
theorem setRangesLoop_isOk (entries : List RangeEntry) (origLen i : Nat)
    (ws : List RangeWidgetPair) (h3 : ∀ e ∈ entries, e.length = 3) :
    ∃ ws', setRangesLoop origLen entries i ws = Except.ok ws' := by
  induction entries generalizing i ws with
  | nil => exact ⟨ws, rfl⟩
  | cons e rest ih =>
    obtain ⟨a, b, c, rfl⟩ := List.length_eq_three.mp (h3 e (List.mem_cons_self e rest))
    have hrest : ∀ x ∈ rest, x.length = 3 := fun x hx => h3 x (List.mem_cons_of_mem _ hx)
    rw [setRangesLoop]
    split
    · exact ih (i + 1) _ hrest
    · exact ih (i + 1) _ hrest

/-- Frame property of the loop: while updating indices `< origLen`, the widget
count and every row at an index past the processed prefix are untouched. -/
theorem setRangesLoop_frame (entries : List RangeEntry) (origLen i : Nat)
    (ws ws' : List RangeWidgetPair)
    (h : setRangesLoop origLen entries i ws = Except.ok ws')
    (hle : i + entries.length ≤ origLen) (horig : origLen ≤ ws.length) :
    ws'.length = ws.length ∧ ∀ j, i + entries.length ≤ j → ws'[j]? = ws[j]? := by
  induction entries generalizing i ws with
  | nil =>
    simp only [setRangesLoop, Except.ok.injEq] at h
    subst h
    simp
  | cons e rest ih =>
    rcases e with _ | ⟨a, e⟩
    · simp [setRangesLoop] at h
    rcases e with _ | ⟨b, e⟩
    · simp [setRangesLoop] at h
    rcases e with _ | ⟨c, e⟩
    · simp [setRangesLoop] at h
    rcases e with _ | ⟨d, e⟩
    swap
    · simp [setRangesLoop] at h
    simp only [setRangesLoop] at h
    have hi : ¬ origLen ≤ i := by
      simp only [List.length_cons] at hle
      omega
    rw [if_neg hi] at h
    have hle' : (i + 1) + rest.length ≤ origLen := by
      simp only [List.length_cons] at hle
      omega
    have horig' : origLen ≤ (ws.set i ⟨a, b⟩).length := by
      simpa using horig
    obtain ⟨hl, hg⟩ := ih (i + 1) (ws.set i ⟨a, b⟩) h hle' horig'
    constructor
    · simpa using hl
    · intro j hj
      simp only [List.length_cons] at hj
      have hji : i ≠ j := by omega
      have := hg j (by omega)
      rw [this, List.getElem?_set_ne hji]

/-- Shape of a successful `_set_range_parameters`: only `rangeWidgets` changes,
and it is the output of the loop started at index 0 on the current rows. -/
theorem set_range_parameters_ok (s s' : EditorState) (p : Params)
    (h : _set_range_parameters s p = Except.ok s') :
    s' = { s with rangeWidgets := s'.rangeWidgets } ∧
      setRangesLoop s.rangeWidgets.length (p.ranges.getD []) 0 s.rangeWidgets =
        Except.ok s'.rangeWidgets := by
  unfold _set_range_parameters at h
  cases heq : setRangesLoop s.rangeWidgets.length (p.ranges.getD []) 0 s.rangeWidgets with
  | ok ws =>
    rw [heq] at h
    have hs : { s with rangeWidgets := ws } = s' := Except.ok.inj h
    constructor
    · rw [← hs]
    · rw [← hs]
  | error e =>
    rw [heq] at h
    simp at h

/-- Master description of a successful `setParameters`: scalar options take the
params values with class-default fallbacks, `user_changed` is forced to true
exactly when the dict is non-empty, the reference is untouched, and the widget
rows are produced by the loop. -/
theorem setParameters_ok_spec (s s' : EditorState) (p : Params)
    (h : setParameters s p = Except.ok s') :
    s'.order = p.order.getD ORDER_DEFAULT ∧
    s'.scaling = p.scaling.getD SCALING_DEFAULT ∧
    s'.output_model = p.output_model.getD OUTPUT_MODEL_DEFAULT ∧
    s'.user_changed = (if p.isEmptyDict then s.user_changed else true) ∧
    s'.reference = s.reference ∧
    setRangesLoop s.rangeWidgets.length (p.ranges.getD []) 0 s.rangeWidgets =
      Except.ok s'.rangeWidgets := by
  unfold setParameters at h
  cases hE : p.isEmptyDict with
  | true =>
    simp only [hE, if_true] at h ⊢
    obtain ⟨hs, hloop⟩ := set_range_parameters_ok _ _ _ h
    rw [hs]
    simpa using hloop
  | false =>
    simp only [hE, if_false] at h ⊢
    obtain ⟨hs, hloop⟩ := set_range_parameters_ok _ _ _ h
    rw [hs]
    simpa using hloop

/-- Whenever every supplied range entry is a 3-tuple, `_set_range_parameters` succeeds. -/
theorem set_range_parameters_isOk (s : EditorState) (p : Params)
    (h3 : ∀ e ∈ p.ranges.getD [], e.length = 3) :
    ∃ s', _set_range_parameters s p = Except.ok s' := by
  obtain ⟨ws', hws⟩ := setRangesLoop_isOk (p.ranges.getD []) s.rangeWidgets.length 0
    s.rangeWidgets h3
  unfold _set_range_parameters
  rw [hws]
  exact ⟨_, rfl⟩

/-- Whenever every supplied range entry is a 3-tuple, `setParameters` succeeds. -/
theorem setParameters_isOk (s : EditorState) (p : Params)
    (h3 : ∀ e ∈ p.ranges.getD [], e.length = 3) :
    ∃ s', setParameters s p = Except.ok s' := by
  unfold setParameters
  exact set_range_parameters_isOk _ p h3

/-- Mapping a function that fixes every member of a list is the identity. -/
theorem map_id_of_mem {α : Type} {l : List α} {f : α → α}
    (h : ∀ e ∈ l, f e = e) : l.map f = l := by
  induction l with
  | nil => rfl
  | cons x xs ih =>
    rw [List.map_cons, h x (List.mem_cons_self x xs),
      ih (fun e he => h e (List.mem_cons_of_mem _ he))]

/-! ### Claim theorems -/

/-- C2: for every params mapping in which the reference-data key is absent or
maps to None, `createinstance(params)` returns the no-reference transform,
which applied to any data table returns a table with zero rows. -/
theorem C2_no_reference_empty_output (p : Params)
    (h : p.getReference = none) :
    createinstance p = Transform.emptyOut ∧
      ∀ data : DataTable, (createinstance p).run data = some ([] : DataTable) := by
  have hc : createinstance p = Transform.emptyOut := by
    unfold createinstance
    rw [h]
  refine ⟨hc, fun data => ?_⟩
  rw [hc]
  rfl

/-- Witness for C2 at a params dict whose reference key is present but maps to
None, applied to a concrete two-row data table. -/
theorem C2_witness :
    Params.getReference exampleParamsNoneRef = none ∧
    createinstance exampleParamsNoneRef = Transform.emptyOut ∧
    (createinstance exampleParamsNoneRef).run [[1, 2], [3, 4]] = some [] :=
  ⟨rfl, (C2_no_reference_empty_output exampleParamsNoneRef rfl).1,
    (C2_no_reference_empty_output exampleParamsNoneRef rfl).2 [[1, 2], [3, 4]]⟩

/-- C3: for every params mapping that supplies a non-None reference spectrum,
`createinstance(params)` builds the EMSC transform with that reference, with
order, scaling and output_model taken from params with the class defaults
2, True, False as fallbacks, and with weights equal to `_compute_weights(params)`. -/
theorem C3_reference_emsc_construction (p : Params) (r : RefData)
    (h : p.getReference = some r) :
    createinstance p =
      Transform.emsc r (_compute_weights p) (p.order.getD ORDER_DEFAULT)
        (p.scaling.getD SCALING_DEFAULT) (p.output_model.getD OUTPUT_MODEL_DEFAULT) ∧
    ORDER_DEFAULT = 2 ∧ SCALING_DEFAULT = true ∧ OUTPUT_MODEL_DEFAULT = false := by
  refine ⟨?_, rfl, rfl, rfl⟩
  unfold createinstance
  rw [h]

/-- Witness for C3 at a params dict supplying a concrete reference and one range,
with all scalar keys absent (so the defaults 2, true, false are used). -/
theorem C3_witness :
    Params.getReference exampleParamsWithRef = some [[1, 2, 3]] ∧
    createinstance exampleParamsWithRef =
      Transform.emsc [[1, 2, 3]] (some (ranges_to_weight_table [[10, 20, 1]])) 2 true false := by
  refine ⟨rfl, ?_⟩
  rw [(C3_reference_emsc_construction exampleParamsWithRef [[1, 2, 3]] rfl).1]
  rfl

/-- C4: `_compute_weights(params)` is None exactly when the ranges key is absent
or maps to an empty sequence, and otherwise is the external
`ranges_to_weight_table` conversion applied to that ranges sequence. -/
theorem C4_compute_weights (p : Params) :
    (_compute_weights p = none ↔ (p.ranges = none ∨ p.ranges = some [])) ∧
    (p.ranges.getD [] ≠ [] →
      _compute_weights p = some (ranges_to_weight_table (p.ranges.getD []))) := by
  constructor
  · unfold _compute_weights
    cases hr : p.ranges with
    | none => simp
    | some rs => cases rs <;> simp
  · intro hne
    unfold _compute_weights
    rw [if_neg]
    simpa using hne

/-- Witness for C4: a non-empty ranges key delegates to the conversion; an
empty ranges key and an absent ranges key both give None. -/
theorem C4_witness :
    _compute_weights exampleParamsWithRef = some (ranges_to_weight_table [[10, 20, 1]]) ∧
    _compute_weights { ranges := some [] } = none ∧
    _compute_weights {} = none :=
  ⟨(C4_compute_weights exampleParamsWithRef).2 (by simp [exampleParamsWithRef]),
    (C4_compute_weights { ranges := some [] }).1.mpr (Or.inr rfl),
    (C4_compute_weights {}).1.mpr (Or.inl rfl)⟩

/-- C9: `createinstance` is a pure function of the recognised params keys: two
params dicts that agree on order, scaling, output_model, ranges and the
reference key yield identical transforms (in particular, unrecognised extra
keys are irrelevant, no editor state is read, and nothing is mutated). -/
theorem C9_createinstance_deterministic (p q : Params)
    (ho : p.order = q.order) (hs : p.scaling = q.scaling)
    (hm : p.output_model = q.output_model) (hr : p.ranges = q.ranges)
    (href : p.reference_data = q.reference_data) :
    createinstance p = createinstance q := by
  unfold createinstance Params.getReference _compute_weights
  rw [ho, hs, hm, hr, href]

/-- Witness for C9: an unrecognised extra key does not change the transform. -/
theorem C9_witness :
    createinstance exampleParamsExtraKey = createinstance exampleParamsOrder3 :=
  C9_createinstance_deterministic exampleParamsExtraKey exampleParamsOrder3
    rfl rfl rfl rfl rfl

/-- C5: a successful `setParameters(params)` sets user_changed to true when
params is non-empty, leaves it at its previous value when params is empty, and
in both cases replaces missing order, scaling and output_model keys by the
class-level defaults. -/
theorem C5_setParameters_fields (s s' : EditorState) (p : Params)
    (h : setParameters s p = Except.ok s') :
    (p.isEmptyDict = false → s'.user_changed = true) ∧
    (p.isEmptyDict = true → s'.user_changed = s.user_changed) ∧
    s'.order = p.order.getD ORDER_DEFAULT ∧
    s'.scaling = p.scaling.getD SCALING_DEFAULT ∧
    s'.output_model = p.output_model.getD OUTPUT_MODEL_DEFAULT := by
  obtain ⟨h1, h2, h3, h4, _, _⟩ := setParameters_ok_spec s s' p h
  refine ⟨fun hE => ?_, fun hE => ?_, h1, h2, h3⟩
  · rw [h4, hE]
    rfl
  · rw [h4, hE]
    rfl

/-- Witness for C5 at a fresh editor and a non-empty params dict carrying only
a scaling key: user_changed flips to true, order and output_model fall back to
their defaults, scaling takes the supplied value. -/
theorem C5_witness :
    exampleParamsScaling.isEmptyDict = false ∧
    exampleAfterScaling.user_changed = true ∧
    exampleAfterScaling.order = 2 ∧
    exampleAfterScaling.scaling = false ∧
    exampleAfterScaling.output_model = false := by
  have h := C5_setParameters_fields EMSCEditor.init exampleAfterScaling
    exampleParamsScaling rfl
  exact ⟨rfl, h.1 rfl, h.2.2.1, h.2.2.2.1, h.2.2.2.2⟩

/-- C6 (corrected claim, as stated): a range entry that is not a 3-tuple makes
`setParameters` raise ValueError rather than fall back to a default — here the
2-tuple entry [100, 200]. -/
theorem C6_counterexample :
    setParameters EMSCEditor.init exampleParamsBadEntry =
      Except.error "ValueError: range entry does not unpack into (rmin, rhigh, weight)" := rfl

/-- C6 (amended): absent keys silently fall back to defaults and raise no
error — whenever every supplied range entry is a 3-tuple (in particular
whenever the ranges key is absent), `setParameters` succeeds; `parameters`,
`_compute_weights` and `createinstance` are total. -/
theorem C6_amended_no_error (s : EditorState) (p : Params)
    (h3 : ∀ e ∈ p.ranges.getD [], e.length = 3) :
    ∃ s', setParameters s p = Except.ok s' :=
  setParameters_isOk s p h3

/-- Witness for the amended C6 at a params dict with a well-formed range entry. -/
theorem C6_witness :
    (∀ e ∈ exampleParamsWeight7.ranges.getD [], e.length = 3) ∧
    (∃ s', setParameters EMSCEditor.init exampleParamsWeight7 = Except.ok s') :=
  ⟨by decide, C6_amended_no_error EMSCEditor.init exampleParamsWeight7 (by decide)⟩

/-- C7 (corrected claim, as stated): `setParameters` stores an out-of-range
order unclamped — with order 99 the resulting state's order is 99, outside
0..10. -/
theorem C7_counterexample :
    setParameters EMSCEditor.init exampleParamsOrder99 =
      Except.ok exampleAfterOrder99 ∧
    exampleAfterOrder99.order = 99 ∧ ¬ ((99 : Int) ≤ 10) :=
  ⟨rfl, rfl, by decide⟩

/-- C7 (amended): order starts at the default 2, an edit through the spin
widget (whose range is 0..10) always lands in 0..10, and a successful
`setParameters` keeps order within 0..10 provided the supplied order value,
when present, lies within 0..10. -/
theorem C7_amended_order_bounds (s s' : EditorState) (p : Params) (v : Int)
    (h : setParameters s p = Except.ok s')
    (hp : ∀ w, p.order = some w → 0 ≤ w ∧ w ≤ 10) :
    EMSCEditor.init.order = 2 ∧
    (0 ≤ (ui_set_order s v).order ∧ (ui_set_order s v).order ≤ 10) ∧
    (0 ≤ s'.order ∧ s'.order ≤ 10) := by
  refine ⟨rfl, ⟨le_max_left 0 _, max_le (by norm_num) (min_le_left 10 v)⟩, ?_⟩
  obtain ⟨ho, _, _, _, _, _⟩ := setParameters_ok_spec s s' p h
  rw [ho]
  cases hor : p.order with
  | none => exact ⟨by norm_num [ORDER_DEFAULT], by norm_num [ORDER_DEFAULT]⟩
  | some w => simpa using hp w hor

/-- Witness for the amended C7 at a fresh editor, a params dict with order 3,
and a spin edit attempting the out-of-range value 99 (clamped to 10). -/
theorem C7_witness :
    (∀ w, exampleParamsOrder3.order = some w → 0 ≤ w ∧ w ≤ 10) ∧
    EMSCEditor.init.order = 2 ∧
    (0 ≤ (ui_set_order EMSCEditor.init 99).order ∧
      (ui_set_order EMSCEditor.init 99).order ≤ 10) ∧
    (0 ≤ exampleAfterOrder3.order ∧ exampleAfterOrder3.order ≤ 10) := by
  have hp : ∀ w, exampleParamsOrder3.order = some w → 0 ≤ w ∧ w ≤ 10 := by
    intro w hw
    have hw3 : w = 3 := by
      simpa [exampleParamsOrder3] using hw.symm
    simp [hw3]
  have h := C7_amended_order_bounds EMSCEditor.init exampleAfterOrder3
    exampleParamsOrder3 99 rfl hp
  exact ⟨hp, h⟩

/-- C8: every range triple produced by `parameters()` has weight exactly 1.0,
whatever weights were supplied in the ranges passed to `setParameters` (only
min and max are applied to the range widgets). -/
theorem C8_weight_always_one (s s' : EditorState) (p : Params)
    (h : setParameters s p = Except.ok s') :
    ∀ t ∈ (parameters s').ranges, t.2.2 = (1 : Rat) := by
  intro t ht
  simp only [parameters, superParameters, List.mem_map] at ht
  obtain ⟨w, _, rfl⟩ := ht
  rfl

/-- Witness for C8: a supplied weight of 7 is ignored; the serialized range
comes back with weight 1. -/
theorem C8_witness :
    setParameters EMSCEditor.init exampleParamsWeight7 = Except.ok exampleAfterWeight7 ∧
    (parameters exampleAfterWeight7).ranges = [(100, 200, 1)] ∧
    ((100 : Rat), (200 : Rat), (1 : Rat)).2.2 = 1 := by
  refine ⟨rfl, rfl, ?_⟩
  exact C8_weight_always_one EMSCEditor.init exampleAfterWeight7 exampleParamsWeight7 rfl
    (100, 200, 1) (by decide)

/-- C1: for every valid params mapping (each range entry a [min, max, weight]
3-tuple with the weight 1.0 that the editor itself serializes), applying
`setParameters(params)` to a fresh editor and then reading `parameters()`
round-trips order, scaling, output_model, and the ranges values. -/
theorem C1_roundtrip (p : Params)
    (hvalid : ∀ e ∈ p.ranges.getD [], e.length = 3 ∧ e.getD 2 0 = 1) :
    ∃ s', setParameters EMSCEditor.init p = Except.ok s' ∧
      (parameters s').order = p.order.getD ORDER_DEFAULT ∧
      (parameters s').scaling = p.scaling.getD SCALING_DEFAULT ∧
      (parameters s').output_model = p.output_model.getD OUTPUT_MODEL_DEFAULT ∧
      (parameters s').ranges.map (fun t => [t.1, t.2.1, t.2.2]) = p.ranges.getD [] := by
  have h3 : ∀ e ∈ p.ranges.getD [], e.length = 3 := fun e he => (hvalid e he).1
  obtain ⟨s', hs'⟩ := setParameters_isOk EMSCEditor.init p h3
  obtain ⟨ho, hsc, hom, _, _, hloop⟩ := setParameters_ok_spec _ _ _ hs'
  have happ := setRangesLoop_append_of_le (p.ranges.getD []) 0 0 [] (le_refl 0) h3
  simp only [EMSCEditor.init, List.length_nil] at hloop
  rw [happ] at hloop
  have hws : s'.rangeWidgets =
      (p.ranges.getD []).map (fun e => ⟨e.headD 0, (e.drop 1).headD 0⟩) := by
    have := Except.ok.inj hloop
    simpa using this.symm
  have hfix : ∀ e ∈ p.ranges.getD [],
      ([(e.headD 0 : Rat), (e.drop 1).headD 0, 1] : List Rat) = e := by
    intro e he
    obtain ⟨hlen, hw1⟩ := hvalid e he
    obtain ⟨a, b, c, rfl⟩ := List.length_eq_three.mp hlen
    simp only [List.getD_cons_succ, List.getD_cons_zero] at hw1
    simp [hw1]
  refine ⟨s', hs', ho, hsc, hom, ?_⟩
  simp only [parameters, superParameters, hws, List.map_map]
  exact map_id_of_mem hfix

/-- Witness for C1 at a full params dict with two weight-1 ranges. -/
theorem C1_witness :
    (∀ e ∈ exampleParamsFull.ranges.getD [], e.length = 3 ∧ e.getD 2 0 = 1) ∧
    (∃ s', setParameters EMSCEditor.init exampleParamsFull = Except.ok s' ∧
      (parameters s').order = 3 ∧
      (parameters s').scaling = false ∧
      (parameters s').output_model = true ∧
      (parameters s').ranges.map (fun t => [t.1, t.2.1, t.2.2]) =
        [[100, 200, 1], [300, 400, 1]]) :=
  ⟨by decide, C1_roundtrip exampleParamsFull (by decide)⟩

/-- C10: when a successful `setParameters` receives fewer range entries than
the editor already has widget rows, the surplus rows survive with their
previous positions and still appear (with weight 1.0) in a subsequent
`parameters()` output: `setParameters` never deletes rows. -/
theorem C10_surplus_widgets_survive (s s' : EditorState) (p : Params)
    (h : setParameters s p = Except.ok s')
    (hk : (p.ranges.getD []).length ≤ s.rangeWidgets.length) :
    s'.rangeWidgets.length = s.rangeWidgets.length ∧
    (∀ j, (p.ranges.getD []).length ≤ j → s'.rangeWidgets[j]? = s.rangeWidgets[j]?) ∧
    (∀ j, (p.ranges.getD []).length ≤ j →
      (parameters s').ranges[j]? =
        (s.rangeWidgets[j]?).map (fun w => (w.minPos, w.maxPos, (1 : Rat)))) := by
  obtain ⟨_, _, _, _, _, hloop⟩ := setParameters_ok_spec s s' p h
  obtain ⟨hl, hg⟩ := setRangesLoop_frame (p.ranges.getD []) s.rangeWidgets.length 0
    s.rangeWidgets s'.rangeWidgets hloop (by simpa using hk) (le_refl _)
  refine ⟨hl, fun j hj => hg j (by simpa using hj), fun j hj => ?_⟩
  have hj' := hg j (by simpa using hj)
  simp only [parameters, superParameters, List.getElem?_map, hj']

/-- Witness for C10: an editor with two rows receives a single range entry; row
0 is updated, row 1 keeps positions (5, 6) and reappears in `parameters()`. -/
theorem C10_witness :
    setParameters exampleTwoWidgets exampleParamsOneRange = Except.ok exampleAfterOneRange ∧
    exampleAfterOneRange.rangeWidgets.length = 2 ∧
    exampleAfterOneRange.rangeWidgets[1]? = some ⟨5, 6⟩ ∧
    (parameters exampleAfterOneRange).ranges[1]? = some (5, 6, 1) := by
  have h := C10_surplus_widgets_survive exampleTwoWidgets exampleAfterOneRange
    exampleParamsOneRange rfl (by decide)
  refine ⟨rfl, ?_, ?_, ?_⟩
  · rw [h.1]
    rfl
  · rw [h.2.1 1 (by decide)]
    rfl
  · rw [h.2.2 1 (by decide)]
    rfl

end EMSCSpec
